import Mathlib

/-!
# Verification of `websockets/server.py` (server-side WebSocket opening handshake)

Shallow embedding of the WebSocket server module: the accept-token
computation (SHA-1 + base64 over the client key and the protocol GUID),
the handshake request validation, the 101-response construction, the
per-connection orchestrator coroutine `handler`, and the `serve`
entry point.  Side effects (transport writes, transport close, state
changes, log calls) are modelled as explicit event traces.

The repository provides only `websockets/server.py`; the collaborators
`websockets/handshake.py` (`check_request`, `build_response`),
`websockets/http.py` (`read_request`, `USER_AGENT`) and
`websockets/protocol.py` (`WebSocketCommonProtocol`, in particular its
`close` coroutine) are modelled from the specification, as marked on
each such definition.
-/

namespace WS

/-! ## Bytes and 32-bit arithmetic over `Nat` -/

/-- Truncate to a 32-bit word. -/
def w32 (n : Nat) : Nat := n % 4294967296

/-- Rotate a 32-bit word left by `b` bits (the two shifted parts occupy
disjoint bit ranges, so addition is bitwise or). -/
def rotl (b n : Nat) : Nat := w32 (n * 2 ^ b) + n / 2 ^ (32 - b)

/-- Bitwise complement of a 32-bit word. -/
def bnot32 (n : Nat) : Nat := 4294967295 - n

/-- Big-endian byte expansion, `n` bytes. -/
def beBytes : Nat → Nat → List Nat
  | 0, _ => []
  | n + 1, v => beBytes n (v / 256) ++ [v % 256]

/-- The bytes of an ASCII string (UTF-8 agrees with code points here). -/
def strBytes (s : String) : List Nat := s.data.map Char.toNat

/-! ## SHA-1 (RFC 3174), as used for the accept token -/

/-- SHA-1 padding: append `0x80`, zero bytes up to 56 mod 64, then the
64-bit big-endian bit length. -/
def sha1pad (m : List Nat) : List Nat :=
  m ++ [128] ++ List.replicate ((119 - m.length % 64) % 64) 0
    ++ beBytes 8 (8 * m.length)

/-- Group bytes into big-endian 32-bit words. -/
def bytesToWords : List Nat → List Nat
  | a :: b :: c :: d :: rest => (((a * 256 + b) * 256 + c) * 256 + d) :: bytesToWords rest
  | _ => []

/-- Split a byte list into 64-byte chunks (structural recursion on a fuel
bound so the definition reduces; the fuel `l.length` always suffices). -/
def chunksAux : Nat → List Nat → List (List Nat)
  | 0, _ => []
  | _, [] => []
  | fuel + 1, a :: l => (a :: l).take 64 :: chunksAux fuel ((a :: l).drop 64)

/-- Split a byte list into 64-byte chunks. -/
def chunks64 (l : List Nat) : List (List Nat) := chunksAux l.length l

/-- Extend the 16 message words to 80 schedule words:
`w i = rotl 1 (w (i-3) xor w (i-8) xor w (i-14) xor w (i-16))`. -/
def sha1schedule (ws : List Nat) : Nat → List Nat
  | 0 => ws
  | n + 1 =>
    let ws := sha1schedule ws n
    let g := fun k => ws.getD (ws.length - k) 0
    ws ++ [rotl 1 (((g 3) ^^^ (g 8)) ^^^ ((g 14) ^^^ (g 16)))]

/-- One SHA-1 compression round. -/
def sha1round (st : Nat × Nat × Nat × Nat × Nat) (iw : Nat × Nat) :
    Nat × Nat × Nat × Nat × Nat :=
  let (a, b, c, d, e) := st
  let (i, wi) := iw
  let f :=
    if i < 20 then (b &&& c) ||| (bnot32 b &&& d)
    else if i < 40 then (b ^^^ c) ^^^ d
    else if i < 60 then ((b &&& c) ||| (b &&& d)) ||| (c &&& d)
    else (b ^^^ c) ^^^ d
  let k :=
    if i < 20 then 1518500249
    else if i < 40 then 1859775393
    else if i < 60 then 2400959708
    else 3395469782
  (w32 (rotl 5 a + f + e + k + wi), a, rotl 30 b, c, d)

/-- Process one 64-byte chunk into the running hash state. -/
def sha1chunk (h : Nat × Nat × Nat × Nat × Nat) (chunk : List Nat) :
    Nat × Nat × Nat × Nat × Nat :=
  let ws := sha1schedule (bytesToWords chunk) 64
  let (a, b, c, d, e) := ws.enum.foldl sha1round h
  let (h0, h1, h2, h3, h4) := h
  (w32 (h0 + a), w32 (h1 + b), w32 (h2 + c), w32 (h3 + d), w32 (h4 + e))

/-- SHA-1 of a byte list, as a 20-byte list. -/
def sha1 (m : List Nat) : List Nat :=
  let (h0, h1, h2, h3, h4) :=
    (chunks64 (sha1pad m)).foldl sha1chunk
      (1732584193, 4023233417, 2562383102, 271733878, 3285377520)
  beBytes 4 h0 ++ beBytes 4 h1 ++ beBytes 4 h2 ++ beBytes 4 h3 ++ beBytes 4 h4

/-! ## Base64 encoding -/

/-- The base64 alphabet. -/
def b64char (n : Nat) : Char :=
  "ABCDEFGHIJKLMNOPQRSTUVWXYZabcdefghijklmnopqrstuvwxyz0123456789+/".data.getD n 'A'

/-- Base64-encode a byte list (with `=` padding). -/
def base64 : List Nat → List Char
  | [] => []
  | [a] => [b64char (a / 4), b64char (a % 4 * 16), '=', '=']
  | [a, b] => [b64char (a / 4), b64char (a % 4 * 16 + b / 16), b64char (b % 16 * 4), '=']
  | a :: b :: c :: rest =>
    b64char (a / 4) :: b64char (a % 4 * 16 + b / 16) ::
      b64char (b % 16 * 4 + c / 64) :: b64char (c % 64) :: base64 rest

/-! ## Accept token -/

/-- The fixed WebSocket protocol GUID (RFC 6455 §4.2.2). -/
def GUID : String := "258EAFA5-E914-47DA-95CA-C5AB0DC85B11"

/-- Modelled from the spec: the Accept-Token Calculator of
`websockets/handshake.py` (not in src/): concatenate the client key
with the protocol GUID, SHA-1 the ASCII bytes, base64-encode the
digest. -/
def accept (key : String) : String :=
  String.mk (base64 (sha1 (strBytes (key ++ GUID))))

/-! ## Handshake requests and header lookup -/

/-- A parsed handshake request: target URI and header mapping, as
returned by `read_request`. -/
structure Request where
  uri : String
  headers : List (String × String)
deriving DecidableEq, Repr

/-- Lowercase an ASCII string (for case-insensitive header handling). -/
def lowerStr (s : String) : String := String.mk (s.data.map Char.toLower)

/-- Modelled from the spec: the header-lookup capability over the mapping
produced by `read_request` (`websockets/http.py`, not in src/):
case-insensitive name lookup, last value wins, empty string if absent —
the behaviour `headers.get(k, '')` relies on in `server.py`. -/
def getHeader (hs : List (String × String)) (k : String) : String :=
  (hs.foldl (fun acc p => if lowerStr p.1 = lowerStr k then some p.2 else acc) none).getD ""

/-- Handshake failure kinds: `malformed` is the `InvalidHandshake
("Malformed HTTP message")` raised when `read_request` fails; the others
are the validation failures of `check_request`. -/
inductive HSErr where
  | malformed
  | invalidUpgrade
  | missingKey
  | wrongVersion
deriving DecidableEq, Repr

/-- Modelled from the spec: `check_request` of `websockets/handshake.py`
(not in src/): require an `Upgrade` header naming the websocket protocol
token (case-insensitively), a present non-empty `Sec-WebSocket-Key`, and
`Sec-WebSocket-Version` 13; return the raw key on success. -/
def check_request (get : String → String) : Except HSErr String :=
  if lowerStr (get "Upgrade") ≠ "websocket" then .error .invalidUpgrade
  else if get "Sec-WebSocket-Key" = "" then .error .missingKey
  else if get "Sec-WebSocket-Version" ≠ "13" then .error .wrongVersion
  else .ok (get "Sec-WebSocket-Key")

/-- Modelled from the spec: the `USER_AGENT` server identification string
of `websockets/http.py` (not in src/); no claim depends on its value. -/
def USER_AGENT : String := "websockets"

/-- The 101 response assembled in `handshake`: the status line, then
`Server`, then the headers appended by `build_response`
(`websockets/handshake.py`, not in src/ — modelled from the spec's wire
format: `Upgrade`, `Connection`, `Sec-WebSocket-Accept`), a final
`'\r\n'` element, all joined with `'\r\n'`. -/
def response_str (key : String) : String :=
  String.intercalate "\r\n"
    ["HTTP/1.1 101 Switching Protocols",
     "Server: " ++ USER_AGENT,
     "Upgrade: websocket",
     "Connection: Upgrade",
     "Sec-WebSocket-Accept: " ++ accept key,
     "\r\n"]

/-! ## Observable events of a connection -/

/-- Observable actions of the orchestrator and handshake: transport
writes (`transport.write`), the state assignment, resolving the
`opening_handshake` future, `logger.warning`, invoking the user
handler, the closing-handshake attempt (`self.close()`),
`transport.close()`, and `create_server` for `serve`. -/
inductive Event where
  | readRequest
  | write (data : List Nat)
  | setState (s : String)
  | signalOpen
  | logWarning
  | runHandler (uri : String)
  | closingHandshake
  | transportClose
  | createServer
deriving DecidableEq, Repr

/-- The per-connection mutable attributes `handshake` touches:
`self.state` and whether `self.opening_handshake` has been resolved. -/
structure Conn where
  state : String
  openingResolved : Bool
deriving DecidableEq, Repr

/-- The connection as `connection_made` leaves it: the class attribute
`state = 'CONNECTING'`, the opening-handshake future unresolved. -/
def initConn : Conn := { state := "CONNECTING", openingResolved := false }

/-- The outcome of `read_request` (`websockets/http.py`, not in src/):
either a parsed request or a parse failure; `handshake` wraps the
latter in `InvalidHandshake ("Malformed HTTP message")`. -/
abbrev ReadOutcome := Except Unit Request

/-- `WebSocketServerProtocol.handshake`: read and parse one request
(a parse failure raises `InvalidHandshake`), validate it with
`check_request` (whose failure propagates), write the full 101
response, set `state = 'OPEN'`, resolve `opening_handshake`, and
return the request URI.  Result: the emitted event trace, the final
connection attributes, and the returned URI or the raised error. -/
def handshake (c : Conn) (rd : ReadOutcome) :
    List Event × Conn × Except HSErr String :=
  match rd with
  | .error _ => ([.readRequest], c, .error .malformed)
  | .ok req =>
    match check_request (getHeader req.headers) with
    | .error e => ([.readRequest], c, .error e)
    | .ok key =>
      ([.readRequest, .write (strBytes (response_str key)),
        .setState "OPEN", .signalOpen],
       { state := "OPEN", openingResolved := true }, .ok req.uri)

/-- `WebSocketServerProtocol`: stores the handler reference; the
handler itself is opaque, so only its presence is modelled. -/
structure WSServerProtocol where
  ws_handler : Option Unit
deriving DecidableEq, Repr

/-- `WebSocketServerProtocol.__init__`: stores `ws_handler` (defaulting
to `None`) and always succeeds — no validation happens here. -/
def initProtocol (h : Option Unit) : WSServerProtocol := { ws_handler := h }

/-- Modelled from the spec: `WebSocketCommonProtocol.close`
(`websockets/protocol.py`, not in src/): runs the closing handshake;
on its completion the transport is released; a failure raises before
the transport is released. -/
def wsClose (closeOk : Bool) : List Event :=
  if closeOk then [.closingHandshake, .transportClose] else [.closingHandshake]

/-- `WebSocketServerProtocol.handler`, the per-connection orchestrator
coroutine: inside one `try`, raise if no handler is configured, run the
handshake, run the user handler, run `self.close()`; any exception is
caught, logged as a warning, and answered by `transport.close()`.
The opaque outcomes are explicit: `rd` (what `read_request` does),
`handlerOk` (whether the user handler returns or raises), `closeOk`
(whether `self.close()` completes or raises).  Total by construction:
no exception ever escapes the coroutine. -/
def handler (p : WSServerProtocol) (rd : ReadOutcome)
    (handlerOk closeOk : Bool) : List Event × Conn :=
  match p.ws_handler with
  | none => ([.logWarning, .transportClose], initConn)
  | some _ =>
    match handshake initConn rd with
    | (ev, c, .error _) => (ev ++ [.logWarning, .transportClose], c)
    | (ev, c, .ok uri) =>
      if handlerOk then
        if closeOk then (ev ++ [.runHandler uri] ++ wsClose true, c)
        else (ev ++ [.runHandler uri] ++ wsClose false ++ [.logWarning, .transportClose], c)
      else (ev ++ [.runHandler uri] ++ [.logWarning, .transportClose], c)

/-- `serve` configuration failures: the two `assert` statements. -/
inductive ServeErr where
  | protocolsNotSupported
  | extensionsNotSupported
deriving DecidableEq, Repr

/-- `serve`: asserts `not protocols` and `not extensions`, then calls
`create_server`; the trace records whether `create_server` was
reached. -/
def serve (protocols extensions : List String) :
    List Event × Except ServeErr Unit :=
  if protocols ≠ [] then ([], .error .protocolsNotSupported)
  else if extensions ≠ [] then ([], .error .extensionsNotSupported)
  else ([.createServer], .ok ())

/-! ## Trace observations -/

/-- Count the events satisfying `p` in a trace. -/
def countEv (p : Event → Bool) (tr : List Event) : Nat := (tr.filter p).length

/-- Is this event a transport write? -/
def isWrite : Event → Bool
  | .write _ => true
  | _ => false

/-- Is this event the `state = 'OPEN'` assignment? -/
def isSetOpen : Event → Bool
  | .setState s => s == "OPEN"
  | _ => false

/-- Is this event the resolution of `opening_handshake`? -/
def isSignal : Event → Bool
  | .signalOpen => true
  | _ => false

/-- Is this event `logger.warning`? -/
def isLog : Event → Bool
  | .logWarning => true
  | _ => false

/-- Is this event the invocation of the user handler? -/
def isRun : Event → Bool
  | .runHandler _ => true
  | _ => false

/-- Is this event the closing-handshake attempt (`self.close()`)? -/
def isClosing : Event → Bool
  | .closingHandshake => true
  | _ => false

/-- Is this event `transport.close()`? -/
def isClose : Event → Bool
  | .transportClose => true
  | _ => false

/-- Is this event the `create_server` call? -/
def isCreate : Event → Bool
  | .createServer => true
  | _ => false

/-- Did this `Except` succeed? -/
def exceptOk : Except HSErr String → Bool
  | .ok _ => true
  | .error _ => false

/-! ## Concrete fixtures (RFC 6455 §1.3 sample handshake) -/

/-- The RFC 6455 sample upgrade request. -/
def exReq : Request :=
  { uri := "/chat",
    headers := [("Host", "server.example.com"), ("Upgrade", "websocket"),
      ("Connection", "Upgrade"),
      ("Sec-WebSocket-Key", "dGhlIHNhbXBsZSBub25jZQ=="),
      ("Sec-WebSocket-Version", "13")] }

/-- A successful read of the sample request. -/
def exRead : ReadOutcome := .ok exReq

/-- An upgrade request with no `Sec-WebSocket-Key` header. -/
def exNoKeyReq : Request :=
  { uri := "/chat",
    headers := [("Host", "server.example.com"), ("Upgrade", "websocket"),
      ("Connection", "Upgrade"), ("Sec-WebSocket-Version", "13")] }

/-- A protocol instance constructed with a handler configured. -/
def pSome : WSServerProtocol := initProtocol (some ())

/-- The ordering contract of a successful handshake on read outcome `rd`
of request `req`: the returned value is the request URI, the final
attributes are OPEN/resolved, the full 101 response appears in the
trace, the completion signal is resolved exactly once, and the response
write strictly precedes the `state = 'OPEN'` assignment, which strictly
precedes the signal resolution. -/
def handshakeOrderOk (rd : ReadOutcome) (req : Request) : Prop :=
  (handshake initConn rd).2.2 = Except.ok req.uri ∧
  (handshake initConn rd).2.1 = { state := "OPEN", openingResolved := true } ∧
  Event.write (strBytes (response_str (getHeader req.headers "Sec-WebSocket-Key")))
    ∈ (handshake initConn rd).1 ∧
  countEv isSignal (handshake initConn rd).1 = 1 ∧
  List.findIdx isWrite (handshake initConn rd).1
    < List.findIdx isSetOpen (handshake initConn rd).1 ∧
  List.findIdx isSetOpen (handshake initConn rd).1
    < List.findIdx isSignal (handshake initConn rd).1

/-! ## Helper lemmas -/

/-- On success, `check_request` returns exactly the
`Sec-WebSocket-Key` header value. -/
theorem check_request_ok_key (g : String → String) (k : String)
    (h : check_request g = .ok k) : k = g "Sec-WebSocket-Key" := by
  unfold check_request at h
  split at h
  · simp at h
  · split at h
    · simp at h
    · split at h
      · simp at h
      · simp at h
        exact h.symm

/-- A request that misses the key or the websocket `Upgrade` token makes
`check_request` fail. -/
theorem check_request_err (g : String → String)
    (h : g "Sec-WebSocket-Key" = "" ∨ lowerStr (g "Upgrade") ≠ "websocket") :
    ∃ e, check_request g = .error e := by
  rcases h with h | h
  · by_cases hu : lowerStr (g "Upgrade") = "websocket"
    · exact ⟨.missingKey, by simp [check_request, hu, h]⟩
    · exact ⟨.invalidUpgrade, by simp [check_request, hu]⟩
  · exact ⟨.invalidUpgrade, by simp [check_request, h]⟩

/-- A failing handshake run emits only the read event and leaves the
connection attributes untouched. -/
theorem handshake_err (c : Conn) (rd : ReadOutcome)
    (h : exceptOk (handshake c rd).2.2 = false) :
    ∃ e, handshake c rd = ([.readRequest], c, .error e) := by
  cases rd with
  | error u => exact ⟨.malformed, rfl⟩
  | ok req =>
    cases hc : check_request (getHeader req.headers) with
    | error e => exact ⟨e, by simp [handshake, hc]⟩
    | ok key => simp [handshake, hc, exceptOk] at h

/-- A successful handshake run: the read succeeded, and the trace is
read, full response write, state assignment, signal resolution, with
the request URI returned. -/
theorem handshake_ok (c : Conn) (rd : ReadOutcome)
    (h : exceptOk (handshake c rd).2.2 = true) :
    ∃ req, rd = .ok req ∧
      handshake c rd =
        ([.readRequest,
          .write (strBytes (response_str (getHeader req.headers "Sec-WebSocket-Key"))),
          .setState "OPEN", .signalOpen],
         { state := "OPEN", openingResolved := true }, .ok req.uri) := by
  cases rd with
  | error u => simp [handshake, exceptOk] at h
  | ok req =>
    refine ⟨req, rfl, ?_⟩
    cases hc : check_request (getHeader req.headers) with
    | error e => simp [handshake, hc, exceptOk] at h
    | ok key =>
      have hk := check_request_ok_key _ _ hc
      subst hk
      simp [handshake, hc]

/-! ## Claim theorems -/

/-- C1: on every execution path of a connection's orchestrator task —
missing handler, handshake failure, handler success, handler failure,
closing failure — the transport's close operation is invoked exactly
once before the task terminates. -/
theorem C1_transport_close_once (p : WSServerProtocol) (rd : ReadOutcome)
    (handlerOk closeOk : Bool) :
    countEv isClose (handler p rd handlerOk closeOk).1 = 1 := by
  cases hp : p.ws_handler with
  | none => simp [handler, hp, countEv, isClose]
  | some u =>
    rcases hs : exceptOk (handshake initConn rd).2.2 with _ | _
    · obtain ⟨e, he⟩ := handshake_err initConn rd hs
      simp [handler, hp, he, countEv, isClose]
    · obtain ⟨req, -, he⟩ := handshake_ok initConn rd hs
      cases handlerOk <;> cases closeOk <;>
        simp [handler, hp, he, wsClose, countEv, isClose]

/-- C2: the Accept-Token Calculator returns
`base64 (SHA1 (key ++ "258EAFA5-E914-47DA-95CA-C5AB0DC85B11"))` for
every key (determinism is inherent: `accept` is a pure function of the
key), and on the RFC 6455 sample key `"dGhlIHNhbXBsZSBub25jZQ=="` it
returns `"s3pPLMBiTxaQ9kYGzzhZRbK+xOo="`. -/
theorem C2_accept_token :
    (∀ key : String,
      accept key = String.mk (base64 (sha1 (strBytes (key ++ GUID))))) ∧
    accept "dGhlIHNhbXBsZSBub25jZQ==" = "s3pPLMBiTxaQ9kYGzzhZRbK+xOo=" := by
  refine ⟨fun _ => rfl, ?_⟩
  set_option maxRecDepth 10000 in decide

/-- C3 counterexample: on the RFC sample request, with a handler that
raises, the orchestrator run contains NO closing-handshake attempt —
the exception jumps straight to the `except` clause, which closes the
transport directly — refuting the claim that the closing sequence is
still attempted before the transport is closed. -/
theorem C3_counterexample :
    exceptOk (handshake initConn exRead).2.2 = true ∧
    countEv isClosing (handler pSome exRead false true).1 = 0 ∧
    countEv isClose (handler pSome exRead false true).1 = 1 :=
  ⟨rfl, rfl, rfl⟩

/-- C3 (amended): if the user handler raises on a connection whose
handshake completed, the orchestrator does NOT attempt the
closing-handshake sequence; the failure is caught, logged as a warning,
and the transport is closed directly, with nothing propagated (the run
is a total function into traces). -/
theorem C3_handler_fault_no_closing (rd : ReadOutcome) (req : Request) (closeOk : Bool)
    (h1 : rd = .ok req)
    (h2 : exceptOk (handshake initConn rd).2.2 = true) :
    handler pSome rd false closeOk =
      ((handshake initConn rd).1 ++ [.runHandler req.uri, .logWarning, .transportClose],
       (handshake initConn rd).2.1) ∧
    countEv isClosing (handler pSome rd false closeOk).1 = 0 ∧
    countEv isLog (handler pSome rd false closeOk).1 = 1 ∧
    countEv isClose (handler pSome rd false closeOk).1 = 1 := by
  obtain ⟨req', hr, he⟩ := handshake_ok initConn rd h2
  rw [h1] at hr
  obtain rfl : req' = req := by injection hr with hr; exact hr.symm
  simp [handler, pSome, initProtocol, he, countEv, isClosing, isLog, isClose]

/-- C3 witness: the amended behaviour at the RFC sample request. -/
theorem C3_handler_fault_no_closing_witness :
    exRead = Except.ok exReq ∧
    exceptOk (handshake initConn exRead).2.2 = true ∧
    (handler pSome exRead false true =
      ((handshake initConn exRead).1 ++ [.runHandler exReq.uri, .logWarning, .transportClose],
       (handshake initConn exRead).2.1) ∧
     countEv isClosing (handler pSome exRead false true).1 = 0 ∧
     countEv isLog (handler pSome exRead false true).1 = 1 ∧
     countEv isClose (handler pSome exRead false true).1 = 1) :=
  ⟨rfl, rfl, C3_handler_fault_no_closing exRead exReq true rfl rfl⟩

/-- C4: in every successful handshake run, the full 101 response bytes
are written strictly before the state is set to OPEN and before the
handshake-completion signal is resolved; the signal is resolved exactly
once, at that point; and the operation returns the request's target
URI. -/
theorem C4_handshake_write_before_open (rd : ReadOutcome) (req : Request)
    (h1 : rd = .ok req)
    (h2 : exceptOk (handshake initConn rd).2.2 = true) :
    handshakeOrderOk rd req := by
  obtain ⟨req', hr, he⟩ := handshake_ok initConn rd h2
  rw [h1] at hr
  obtain rfl : req' = req := by injection hr with hr; exact hr.symm
  unfold handshakeOrderOk
  rw [he]
  refine ⟨rfl, rfl, by simp, ?_, ?_, ?_⟩ <;>
    simp [countEv, isSignal, isWrite, isSetOpen, List.findIdx_cons]

/-- C4 witness: the ordering contract at the RFC sample request. -/
theorem C4_handshake_write_before_open_witness :
    exRead = Except.ok exReq ∧
    exceptOk (handshake initConn exRead).2.2 = true ∧
    handshakeOrderOk exRead exReq :=
  ⟨rfl, rfl, C4_handshake_write_before_open exRead exReq rfl rfl⟩

/-- C5: whenever the `Sec-WebSocket-Key` header is absent (empty under
the lookup's empty-default) or the `Upgrade` header does not name the
websocket protocol, the handshake fails and no bytes are ever written
to the transport — neither by the handshake itself nor anywhere in the
whole orchestrator run. -/
theorem C5_no_write_on_invalid_request (req : Request)
    (h : getHeader req.headers "Sec-WebSocket-Key" = "" ∨
         lowerStr (getHeader req.headers "Upgrade") ≠ "websocket") :
    (∃ e, (handshake initConn (.ok req)).2.2 = Except.error e) ∧
    countEv isWrite (handshake initConn (.ok req)).1 = 0 ∧
    ∀ handlerOk closeOk : Bool,
      countEv isWrite (handler pSome (.ok req) handlerOk closeOk).1 = 0 := by
  obtain ⟨e, hc⟩ := check_request_err (getHeader req.headers) h
  refine ⟨⟨e, by simp [handshake, hc]⟩, by simp [handshake, hc, countEv, isWrite], ?_⟩
  intro handlerOk closeOk
  simp [handler, pSome, initProtocol, handshake, hc, countEv, isWrite]

/-- C5 witness: the request with no `Sec-WebSocket-Key` header. -/
theorem C5_no_write_on_invalid_request_witness :
    (getHeader exNoKeyReq.headers "Sec-WebSocket-Key" = "" ∨
     lowerStr (getHeader exNoKeyReq.headers "Upgrade") ≠ "websocket") ∧
    ((∃ e, (handshake initConn (.ok exNoKeyReq)).2.2 = Except.error e) ∧
     countEv isWrite (handshake initConn (.ok exNoKeyReq)).1 = 0 ∧
     ∀ handlerOk closeOk : Bool,
       countEv isWrite (handler pSome (.ok exNoKeyReq) handlerOk closeOk).1 = 0) :=
  ⟨Or.inl rfl, C5_no_write_on_invalid_request exNoKeyReq (Or.inl rfl)⟩

/-- C6: whenever the handshake fails (malformed request or invalid
handshake), the failure is caught inside the orchestrator task: the
run is exactly the failing handshake's events followed by a logged
warning and the transport close, the user handler is never invoked,
and nothing is re-raised to any caller — the orchestrator is a total
function into traces, with no error component in its result. -/
theorem C6_handshake_failure_contained (rd : ReadOutcome) (handlerOk closeOk : Bool)
    (h : exceptOk (handshake initConn rd).2.2 = false) :
    handler pSome rd handlerOk closeOk =
      ((handshake initConn rd).1 ++ [.logWarning, .transportClose],
       (handshake initConn rd).2.1) ∧
    countEv isLog (handler pSome rd handlerOk closeOk).1 = 1 ∧
    countEv isClose (handler pSome rd handlerOk closeOk).1 = 1 ∧
    countEv isRun (handler pSome rd handlerOk closeOk).1 = 0 := by
  obtain ⟨e, he⟩ := handshake_err initConn rd h
  simp [handler, pSome, initProtocol, he, countEv, isLog, isClose, isRun]

/-- C6 witness: an unparsable request (read failure). -/
theorem C6_handshake_failure_contained_witness :
    exceptOk (handshake initConn (Except.error ())).2.2 = false ∧
    (handler pSome (Except.error ()) true true =
      ((handshake initConn (Except.error ())).1 ++ [.logWarning, .transportClose],
       (handshake initConn (Except.error ())).2.1) ∧
     countEv isLog (handler pSome (Except.error ()) true true).1 = 1 ∧
     countEv isClose (handler pSome (Except.error ()) true true).1 = 1 ∧
     countEv isRun (handler pSome (Except.error ()) true true).1 = 0) :=
  ⟨rfl, C6_handshake_failure_contained (Except.error ()) true true rfl⟩

/-- C7 counterexample: constructing the protocol without a handler
succeeds — `__init__` merely stores `ws_handler = None`, its result
type has no failure component — and the missing handler surfaces only
per connection, at runtime, inside the orchestrator task, where the
`NotImplementedError` is caught by the `except` clause and silently
logged as a warning before the transport is closed; nothing is raised
synchronously at construction time. -/
theorem C7_counterexample :
    initProtocol none = { ws_handler := none } ∧
    handler (initProtocol none) exRead true true =
      ([.logWarning, .transportClose], initConn) ∧
    countEv isLog (handler (initProtocol none) exRead true true).1 = 1 :=
  ⟨rfl, rfl, rfl⟩

/-- C7 (amended): constructing a server protocol without a handler
succeeds; the missing handler is detected per connection at runtime in
the orchestrator task, where the resulting `NotImplementedError` is
caught and logged as a warning and the transport is closed — the user
handler is never invoked, and no error is raised at construction
time. -/
theorem C7_missing_handler_runtime (rd : ReadOutcome) (handlerOk closeOk : Bool) :
    (initProtocol none).ws_handler = none ∧
    handler (initProtocol none) rd handlerOk closeOk =
      ([.logWarning, .transportClose], initConn) ∧
    countEv isRun (handler (initProtocol none) rd handlerOk closeOk).1 = 0 := by
  refine ⟨rfl, ?_, ?_⟩ <;> simp [handler, initProtocol, countEv, isRun]

/-- C8: calling `serve` with non-empty `protocols` or non-empty
`extensions` fails with a configuration (assertion) error and
`create_server` is never reached (the trace is empty); with both
empty, no error is raised and `create_server` is called. -/
theorem C8_serve_rejects_negotiation (protocols extensions : List String)
    (h : protocols ≠ [] ∨ extensions ≠ []) :
    (∃ e, (serve protocols extensions).2 = Except.error e) ∧
    (serve protocols extensions).1 = [] ∧
    countEv isCreate (serve protocols extensions).1 = 0 ∧
    serve [] [] = ([.createServer], Except.ok ()) := by
  rcases h with h | h
  · exact ⟨⟨.protocolsNotSupported, by simp [serve, h]⟩, by simp [serve, h],
      by simp [serve, h, countEv], rfl⟩
  · by_cases hp : protocols = []
    · exact ⟨⟨.extensionsNotSupported, by simp [serve, hp, h]⟩, by simp [serve, hp, h],
        by simp [serve, hp, h, countEv], rfl⟩
    · exact ⟨⟨.protocolsNotSupported, by simp [serve, hp]⟩, by simp [serve, hp],
        by simp [serve, hp, countEv], rfl⟩

/-- C8 witness: one requested subprotocol. -/
theorem C8_serve_rejects_negotiation_witness :
    ((["chat"] : List String) ≠ [] ∨ ([] : List String) ≠ []) ∧
    ((∃ e, (serve ["chat"] []).2 = Except.error e) ∧
     (serve ["chat"] []).1 = [] ∧
     countEv isCreate (serve ["chat"] []).1 = 0 ∧
     serve [] [] = ([.createServer], Except.ok ())) :=
  ⟨Or.inl (by decide), C8_serve_rejects_negotiation ["chat"] [] (Or.inl (by decide))⟩

/-- C9: in any orchestrator run the handshake response is written at
most once, and — when a handler is configured and the handshake
succeeds — exactly once, regardless of handler and closing behaviour. -/
theorem C9_response_written_once (p : WSServerProtocol) (rd : ReadOutcome)
    (handlerOk closeOk : Bool) :
    countEv isWrite (handler p rd handlerOk closeOk).1 ≤ 1 ∧
    (p.ws_handler = some () → exceptOk (handshake initConn rd).2.2 = true →
      countEv isWrite (handler p rd handlerOk closeOk).1 = 1) := by
  constructor
  · cases hp : p.ws_handler with
    | none => simp [handler, hp, countEv, isWrite]
    | some u =>
      rcases hs : exceptOk (handshake initConn rd).2.2 with _ | _
      · obtain ⟨e, he⟩ := handshake_err initConn rd hs
        simp [handler, hp, he, countEv, isWrite]
      · obtain ⟨req, -, he⟩ := handshake_ok initConn rd hs
        cases handlerOk <;> cases closeOk <;>
          simp [handler, hp, he, wsClose, countEv, isWrite]
  · intro hp hs
    obtain ⟨req, -, he⟩ := handshake_ok initConn rd hs
    cases handlerOk <;> cases closeOk <;>
      simp [handler, hp, he, wsClose, countEv, isWrite]

/-- C9 witness: exactly one response write on the RFC sample request. -/
theorem C9_response_written_once_witness :
    pSome.ws_handler = some () ∧
    exceptOk (handshake initConn exRead).2.2 = true ∧
    countEv isWrite (handler pSome exRead true true).1 = 1 :=
  ⟨rfl, rfl, (C9_response_written_once pSome exRead true true).2 rfl rfl⟩

/-- C10: if the handshake fails at any point (read, parse, or
validation), the connection state is never set to OPEN — it remains
`'CONNECTING'` — and the handshake-completion signal is never
resolved: no state-assignment or signal event appears in the trace and
the final attributes equal the initial ones. -/
theorem C10_no_open_on_failure (rd : ReadOutcome)
    (h : exceptOk (handshake initConn rd).2.2 = false) :
    (handshake initConn rd).2.1.state = "CONNECTING" ∧
    (handshake initConn rd).2.1.openingResolved = false ∧
    countEv isSetOpen (handshake initConn rd).1 = 0 ∧
    countEv isSignal (handshake initConn rd).1 = 0 := by
  obtain ⟨e, he⟩ := handshake_err initConn rd h
  rw [he]
  exact ⟨rfl, rfl, rfl, rfl⟩

/-- C10 witness: the request with no `Sec-WebSocket-Key` header. -/
theorem C10_no_open_on_failure_witness :
    exceptOk (handshake initConn (.ok exNoKeyReq)).2.2 = false ∧
    ((handshake initConn (.ok exNoKeyReq)).2.1.state = "CONNECTING" ∧
     (handshake initConn (.ok exNoKeyReq)).2.1.openingResolved = false ∧
     countEv isSetOpen (handshake initConn (.ok exNoKeyReq)).1 = 0 ∧
     countEv isSignal (handshake initConn (.ok exNoKeyReq)).1 = 0) :=
  ⟨rfl, C10_no_open_on_failure (.ok exNoKeyReq) rfl⟩

end WS
